import Mathlib

/-!
Verification development for the hetzner_dyndns bridge.

The Go sources are shallowly embedded:
* `strings` helpers (`HasSuffix`, `TrimSuffix`, `Join`, `Count`) are modelled
  over `String.data` (Go byte strings restricted to the characters the bridge
  handles; all delimiters involved are ASCII, so character-level matching
  agrees with Go's byte-level matching).
* `net.ParseIP` is modelled after the Go standard library dispatcher
  (first `.` selects the dotted-quad parser, first `:` the IPv6 parser,
  `%` and no special character yield `nil`), with the dotted-quad and IPv6
  field grammars of `net/netip`.
* The Hetzner client (`GetZones`, `GetAllRecords`, `UpdateRecord`,
  `CreateRecord` in the client source) performs network I/O; it is modelled
  as a `Provider` record of call results, and the bridge functions
  additionally return the list of provider calls they issue.
* `handleUpdate` and `updateDNSRecord` from dyndns.go are translated
  branch by branch; `http.Error` semantics (body is the message plus a
  newline) are preserved.
-/

/-- Go `strings.HasSuffix s suf`. -/
def goHasSuffix (s suf : String) : Bool :=
  suf.data.isSuffixOf s.data

/-- Go `strings.TrimSuffix s suf`: removes `suf` from the end of `s`
when present, otherwise returns `s` unchanged. -/
def goTrimSuffix (s suf : String) : String :=
  if goHasSuffix s suf then String.mk (s.data.take (s.data.length - suf.data.length)) else s

/-- Go `strings.Count s (String.singleton c)`: occurrences of the
one-character separator `c` in `s`. -/
def goCount (s : String) (c : Char) : Nat :=
  s.data.count c

/-- Go `strings.Join elems sep`. -/
def goJoin (elems : List String) (sep : String) : String :=
  match elems with
  | [] => ""
  | x :: xs => xs.foldl (fun acc e => acc ++ sep ++ e) x

/-- Value of a hex digit, as accepted by the Go IPv6 field scanner
(digits, lowercase and uppercase hex letters). -/
def hexDigitVal (c : Char) : Option Nat :=
  if c.isDigit then some (c.toNat - '0'.toNat)
  else if 'a' ≤ c ∧ c ≤ 'f' then some (c.toNat - 'a'.toNat + 10)
  else if 'A' ≤ c ∧ c ≤ 'F' then some (c.toNat - 'A'.toNat + 10)
  else none

/-- Go `net/netip` dotted-quad field scanner (`parseIPv4Fields`): four
decimal fields separated by `.`, each `0..255`, no leading zeros, no empty
field, nothing else in the string.  State: remaining input, current field
value, digits seen in the current field, completed fields (reversed), and
whether we are at the start of a field (string start or just after a dot).
Returns the four octets on success. -/
def parseIPv4Fields : List Char → Nat → Nat → List Nat → Bool → Option (List Nat)
  | [], val, _, fieldsRev, _ =>
    if fieldsRev.length == 3 then some (fieldsRev.reverse ++ [val]) else none
  | c :: rest, val, digLen, fieldsRev, atFieldStart =>
    if c.isDigit then
      if digLen == 1 && val == 0 then none
      else
        let val' := val * 10 + (c.toNat - '0'.toNat)
        if val' > 255 then none
        else parseIPv4Fields rest val' (digLen + 1) fieldsRev false
    else if c == '.' then
      if atFieldStart then none
      else if rest.isEmpty then none
      else if fieldsRev.length == 3 then none
      else parseIPv4Fields rest 0 0 (val :: fieldsRev) true
    else none

/-- Hex field scanner of the Go IPv6 parser: consumes leading hex digits,
accumulating the value; fails only when the accumulated value overflows
16 bits, so a field may carry any number of leading zeros (Go checks
`acc > math.MaxUint16` after each digit, not the digit count).  Returns
the accumulated value, the number of digits consumed, and the rest. -/
def takeHex : List Char → Nat → Nat → Option (Nat × Nat × List Char)
  | [], acc, off => some (acc, off, [])
  | c :: rest, acc, off =>
    match hexDigitVal c with
    | none => some (acc, off, c :: rest)
    | some d =>
      let acc' := acc * 16 + d
      if acc' > 65535 then none else takeHex rest acc' (off + 1)

/-- End-of-loop processing of the Go IPv6 parser: a short address needs an
ellipsis to expand with zero bytes at the remembered position; a full
address must not also carry an ellipsis. -/
def finishV6 (ip : List Nat) (ell : Option Nat) : Option (List Nat) :=
  if ip.length < 16 then
    match ell with
    | none => none
    | some e => some (ip.take e ++ List.replicate (16 - ip.length) 0 ++ ip.drop e)
  else
    match ell with
    | none => some ip
    | some _ => none

/-- Main loop of the Go IPv6 parser (`net/netip.parseIPv6`), entered with
the bytes parsed so far (`ip`, fewer than 16 on entry), the ellipsis
position if one was seen, and a nonempty remainder.  Each iteration reads a
hex field; a field followed by a dot switches to the embedded dotted-quad
parser for the final four bytes.  The fuel bounds the iteration count
(each iteration adds at least two bytes, so 16 is ample). -/
def parseV6Loop : Nat → List Char → List Nat → Option Nat → Option (List Nat)
  | 0, _, _, _ => none
  | fuel + 1, s, ip, ell =>
    match takeHex s 0 0 with
    | none => none
    | some (acc, off, rest) =>
      if off == 0 then none
      else if rest.head? == some '.' then
        if ell.isNone && ip.length != 12 then none
        else if ip.length + 4 > 16 then none
        else
          match parseIPv4Fields s 0 0 [] true with
          | none => none
          | some octets => finishV6 (ip ++ octets) ell
      else
        let ip' := ip ++ [acc / 256, acc % 256]
        match rest with
        | [] => finishV6 ip' ell
        | c :: rest' =>
          if c != ':' then none
          else
            match rest' with
            | [] => none
            | c2 :: rest'' =>
              if c2 == ':' then
                if ell.isSome then none
                else
                  match rest'' with
                  | [] => finishV6 ip' (some ip'.length)
                  | _ =>
                    if ip'.length < 16 then parseV6Loop fuel rest'' ip' (some ip'.length)
                    else none
              else
                if ip'.length < 16 then parseV6Loop fuel (c2 :: rest'') ip' ell
                else none

/-- Go `net/netip.parseIPv6`: a leading `::` records the ellipsis at the
start (a bare `::` is the unspecified address), then the main loop runs. -/
def parseIPv6Go (s : List Char) : Option (List Nat) :=
  match s with
  | ':' :: ':' :: rest =>
    if rest.isEmpty then some (List.replicate 16 0)
    else parseV6Loop 16 rest [] (some 0)
  | _ => parseV6Loop 16 s [] none

/-- Result of Go `net.ParseIP`: a four-octet or sixteen-byte address
(`nil` is modelled by `Option`). -/
inductive GoIP where
  | v4 (octets : List Nat)
  | v6 (bytes : List Nat)
deriving DecidableEq, Repr

/-- Dispatcher of Go `net.ParseIP`: scan for the first special character;
a dot selects the dotted-quad parser over the whole string, a colon the
IPv6 parser, a percent sign (zone marker) is rejected, and a string with
no special character at all is not an address. -/
def parseAddrDispatch (orig : List Char) : List Char → Option GoIP
  | [] => none
  | c :: rest =>
    if c == '.' then (parseIPv4Fields orig 0 0 [] true).map GoIP.v4
    else if c == ':' then (parseIPv6Go orig).map GoIP.v6
    else if c == '%' then none
    else parseAddrDispatch orig rest

/-- Go `net.ParseIP`. -/
def goParseIP (s : String) : Option GoIP :=
  parseAddrDispatch s.data s.data

/-- dyndns.go `isValidIPv4`: `net.ParseIP(ip) != nil && strings.Count(ip, ":") == 0`. -/
def isValidIPv4 (ip : String) : Bool :=
  (goParseIP ip).isSome && goCount ip ':' == 0

/-- dyndns.go `isValidIPv6`: `net.ParseIP(ip) != nil && strings.Count(ip, ":") > 0`. -/
def isValidIPv6 (ip : String) : Bool :=
  (goParseIP ip).isSome && decide (0 < goCount ip ':')

/-- Go `time.Time` as it appears on the wire: the standard library encodes
a `time.Time` as its RFC 3339 text, and decoding that text restores the
instant; the model carries the wire text itself. -/
structure GoTime where
  rfc3339 : String
deriving DecidableEq, Repr

/-- The anonymous `txt_verification` struct nested in `Zone`. -/
structure ZoneTxtVerification where
  Name : String
  Token : String
deriving DecidableEq, Repr

/-- Schema type `Zone` (every field serialized, no omitempty). -/
structure Zone where
  ID : String
  Name : String
  TTL : Int
  Registrar : String
  LegacyDNSHost : String
  LegacyNS : List String
  NS : List String
  Created : GoTime
  Verified : GoTime
  Modified : GoTime
  Project : String
  Owner : String
  Permission : String
  ZoneType : String
  Status : String
  Paused : Bool
  IsSecondaryDNS : Bool
  TxtVerification : ZoneTxtVerification
  RecordsCount : Int
deriving DecidableEq, Repr

/-- Schema type `DNSRecord`.  `TTL *int` with omitempty is an
optional integer distinguishing absent from zero; `id`, `zone_id`,
`created`, `modified` are omitempty strings. -/
structure DNSRecord where
  ID : String
  «Type» : String
  Name : String
  Value : String
  TTL : Option Int
  ZoneID : String
  Created : String
  Modified : String
deriving DecidableEq, Repr

/-- Schema type `CreateRecordRequest` (`ttl` optional). -/
structure CreateRecordRequest where
  «Type» : String
  Name : String
  Value : String
  TTL : Option Int
  ZoneID : String
deriving DecidableEq, Repr

/-- Schema type `UpdateRecordRequest` (`ttl` optional). -/
structure UpdateRecordRequest where
  «Type» : String
  Name : String
  Value : String
  TTL : Option Int
deriving DecidableEq, Repr

/-- The nested `error` object of `APIError`. -/
structure APIErrorBody where
  Message : String
  Code : Int
deriving DecidableEq, Repr

/-- Schema type `APIError`: the provider's error envelope. -/
structure APIError where
  Error : APIErrorBody
deriving DecidableEq, Repr

/-- JSON values, for the wire model of `encoding/json`. -/
inductive JVal where
  | jnull
  | jbool (b : Bool)
  | jnum (n : Int)
  | jstr (s : String)
  | jarr (xs : List JVal)
  | jobj (fields : List (String × JVal))

/-- Key lookup in an encoded object (all our encoders emit distinct keys). -/
def jlookup : List (String × JVal) → String → Option JVal
  | [], _ => none
  | (k, v) :: rest, key => if k == key then some v else jlookup rest key

/-- Field of an encoded object, `none` on any other JSON value. -/
def jfieldOf : JVal → String → Option JVal
  | JVal.jobj fields, key => jlookup fields key
  | _, _ => none

/-- An omitempty string field: `encoding/json` drops the pair when the
string is empty. -/
def jStrOmit (key s : String) : List (String × JVal) :=
  if s == "" then [] else [(key, JVal.jstr s)]

/-- An omitempty `*int` field: a nil pointer is dropped, a pointer to any
integer (including zero) is serialized. -/
def jTTLOmit (key : String) (ttl : Option Int) : List (String × JVal) :=
  match ttl with
  | none => []
  | some n => [(key, JVal.jnum n)]

def encodeGoTime (t : GoTime) : JVal :=
  JVal.jstr t.rfc3339

def encodeZoneTxtVerification (v : ZoneTxtVerification) : JVal :=
  JVal.jobj [("name", JVal.jstr v.Name), ("token", JVal.jstr v.Token)]

def encodeZone (z : Zone) : JVal :=
  JVal.jobj
    [("id", JVal.jstr z.ID), ("name", JVal.jstr z.Name), ("ttl", JVal.jnum z.TTL),
     ("registrar", JVal.jstr z.Registrar), ("legacy_dns_host", JVal.jstr z.LegacyDNSHost),
     ("legacy_ns", JVal.jarr (z.LegacyNS.map JVal.jstr)), ("ns", JVal.jarr (z.NS.map JVal.jstr)),
     ("created", encodeGoTime z.Created), ("verified", encodeGoTime z.Verified),
     ("modified", encodeGoTime z.Modified), ("project", JVal.jstr z.Project),
     ("owner", JVal.jstr z.Owner), ("permission", JVal.jstr z.Permission),
     ("zone_type", JVal.jstr z.ZoneType), ("status", JVal.jstr z.Status),
     ("paused", JVal.jbool z.Paused), ("is_secondary_dns", JVal.jbool z.IsSecondaryDNS),
     ("txt_verification", encodeZoneTxtVerification z.TxtVerification),
     ("records_count", JVal.jnum z.RecordsCount)]

def encodeDNSRecord (r : DNSRecord) : JVal :=
  JVal.jobj
    (jStrOmit "id" r.ID
      ++ [("type", JVal.jstr r.«Type»), ("name", JVal.jstr r.Name),
          ("value", JVal.jstr r.Value)]
      ++ jTTLOmit "ttl" r.TTL
      ++ jStrOmit "zone_id" r.ZoneID
      ++ jStrOmit "created" r.Created
      ++ jStrOmit "modified" r.Modified)

def encodeCreateRecordRequest (c : CreateRecordRequest) : JVal :=
  JVal.jobj
    ([("type", JVal.jstr c.«Type»), ("name", JVal.jstr c.Name), ("value", JVal.jstr c.Value)]
      ++ jTTLOmit "ttl" c.TTL
      ++ [("zone_id", JVal.jstr c.ZoneID)])

def encodeUpdateRecordRequest (u : UpdateRecordRequest) : JVal :=
  JVal.jobj
    ([("type", JVal.jstr u.«Type»), ("name", JVal.jstr u.Name), ("value", JVal.jstr u.Value)]
      ++ jTTLOmit "ttl" u.TTL)

def encodeAPIError (e : APIError) : JVal :=
  JVal.jobj
    [("error", JVal.jobj [("message", JVal.jstr e.Error.Message),
                          ("code", JVal.jnum e.Error.Code)])]

/-- Decode a string field: a missing field leaves Go's zero value `""`, a
string is taken as is, any other value is a decode error. -/
def decStr (fields : List (String × JVal)) (key : String) : Option String :=
  match jlookup fields key with
  | none => some ""
  | some (JVal.jstr s) => some s
  | some _ => none

/-- Decode an integer field: missing leaves `0`. -/
def decInt (fields : List (String × JVal)) (key : String) : Option Int :=
  match jlookup fields key with
  | none => some 0
  | some (JVal.jnum n) => some n
  | some _ => none

/-- Decode a boolean field: missing leaves `false`. -/
def decBool (fields : List (String × JVal)) (key : String) : Option Bool :=
  match jlookup fields key with
  | none => some false
  | some (JVal.jbool b) => some b
  | some _ => none

/-- Decode an optional `*int` field: missing or `null` leaves the nil
pointer, a number sets it. -/
def decOptInt (fields : List (String × JVal)) (key : String) : Option (Option Int) :=
  match jlookup fields key with
  | none => some none
  | some JVal.jnull => some none
  | some (JVal.jnum n) => some (some n)
  | some _ => none

/-- Decode a string-list field: missing or `null` leaves the nil slice. -/
def decStrList (fields : List (String × JVal)) (key : String) : Option (List String) :=
  match jlookup fields key with
  | none => some []
  | some JVal.jnull => some []
  | some (JVal.jarr xs) =>
    xs.mapM fun x =>
      match x with
      | JVal.jstr s => some s
      | _ => none
  | some _ => none

/-- Decode a `time.Time` field: the wire text is carried through. -/
def decTime (fields : List (String × JVal)) (key : String) : Option GoTime :=
  match jlookup fields key with
  | none => some (GoTime.mk "")
  | some (JVal.jstr s) => some (GoTime.mk s)
  | some _ => none

def decodeZoneTxtVerification (j : JVal) : Option ZoneTxtVerification :=
  match j with
  | JVal.jobj fields => do
    let name ← decStr fields "name"
    let token ← decStr fields "token"
    some { Name := name, Token := token }
  | _ => none

/-- Decode the nested `txt_verification` value; a missing field leaves the
zero struct. -/
def decTxtVerification (fields : List (String × JVal)) (key : String) :
    Option ZoneTxtVerification :=
  match jlookup fields key with
  | none => some { Name := "", Token := "" }
  | some j => decodeZoneTxtVerification j

/-- The string-typed fields of `Zone`, decoded together (the decoder is
staged in two halves purely to keep the elaborated terms small). -/
structure ZoneStrings where
  ID : String
  Name : String
  Registrar : String
  LegacyDNSHost : String
  Project : String
  Owner : String
  Permission : String
  ZoneType : String
  Status : String

def decodeZoneStrings (fields : List (String × JVal)) : Option ZoneStrings := do
  let id ← decStr fields "id"
  let name ← decStr fields "name"
  let registrar ← decStr fields "registrar"
  let legacyHost ← decStr fields "legacy_dns_host"
  let project ← decStr fields "project"
  let owner ← decStr fields "owner"
  let permission ← decStr fields "permission"
  let zoneType ← decStr fields "zone_type"
  let status ← decStr fields "status"
  some { ID := id, Name := name, Registrar := registrar, LegacyDNSHost := legacyHost,
         Project := project, Owner := owner, Permission := permission,
         ZoneType := zoneType, Status := status }

def decodeZoneFields (fields : List (String × JVal)) : Option Zone := do
  let ss ← decodeZoneStrings fields
  let ttl ← decInt fields "ttl"
  let legacyNS ← decStrList fields "legacy_ns"
  let ns ← decStrList fields "ns"
  let created ← decTime fields "created"
  let verified ← decTime fields "verified"
  let modified ← decTime fields "modified"
  let paused ← decBool fields "paused"
  let isSecondary ← decBool fields "is_secondary_dns"
  let txt ← decTxtVerification fields "txt_verification"
  let recordsCount ← decInt fields "records_count"
  some { ID := ss.ID, Name := ss.Name, TTL := ttl, Registrar := ss.Registrar,
         LegacyDNSHost := ss.LegacyDNSHost, LegacyNS := legacyNS, NS := ns,
         Created := created, Verified := verified, Modified := modified,
         Project := ss.Project, Owner := ss.Owner, Permission := ss.Permission,
         ZoneType := ss.ZoneType, Status := ss.Status, Paused := paused,
         IsSecondaryDNS := isSecondary, TxtVerification := txt,
         RecordsCount := recordsCount }

def decodeZone (j : JVal) : Option Zone :=
  match j with
  | JVal.jobj fields => decodeZoneFields fields
  | _ => none

def decodeDNSRecord (j : JVal) : Option DNSRecord :=
  match j with
  | JVal.jobj fields => do
    let id ← decStr fields "id"
    let ty ← decStr fields "type"
    let name ← decStr fields "name"
    let value ← decStr fields "value"
    let ttl ← decOptInt fields "ttl"
    let zoneID ← decStr fields "zone_id"
    let created ← decStr fields "created"
    let modified ← decStr fields "modified"
    some { ID := id, «Type» := ty, Name := name, Value := value, TTL := ttl,
           ZoneID := zoneID, Created := created, Modified := modified }
  | _ => none

def decodeCreateRecordRequest (j : JVal) : Option CreateRecordRequest :=
  match j with
  | JVal.jobj fields => do
    let ty ← decStr fields "type"
    let name ← decStr fields "name"
    let value ← decStr fields "value"
    let ttl ← decOptInt fields "ttl"
    let zoneID ← decStr fields "zone_id"
    some { «Type» := ty, Name := name, Value := value, TTL := ttl, ZoneID := zoneID }
  | _ => none

def decodeUpdateRecordRequest (j : JVal) : Option UpdateRecordRequest :=
  match j with
  | JVal.jobj fields => do
    let ty ← decStr fields "type"
    let name ← decStr fields "name"
    let value ← decStr fields "value"
    let ttl ← decOptInt fields "ttl"
    some { «Type» := ty, Name := name, Value := value, TTL := ttl }
  | _ => none

def decodeAPIError (j : JVal) : Option APIError :=
  match j with
  | JVal.jobj fields =>
    match jlookup fields "error" with
    | none => some { Error := { Message := "", Code := 0 } }
    | some (JVal.jobj inner) => do
      let msg ← decStr inner "message"
      let code ← decInt inner "code"
      some { Error := { Message := msg, Code := code } }
    | some _ => none
  | _ => none

/-- The DynDNS server configuration (`NewDynDNSServer`): the Hetzner client
is passed separately as a `Provider`. -/
structure DynDNSServer where
  username : String
  password : String
  port : String
deriving DecidableEq, Repr

/-- The observable behaviour of the Hetzner client for one request: the
result of each call the bridge may issue.  Zone and record listings are
fetched fresh, so a single result per call suffices for one request. -/
structure Provider where
  getZones : Except String (List Zone)
  getAllRecords : String → Except String (List DNSRecord)
  updateRecord : String → UpdateRecordRequest → Except String DNSRecord
  createRecord : CreateRecordRequest → Except String DNSRecord

/-- A call issued to the remote provider. -/
inductive ProviderCall where
  | getZones
  | getAllRecords (zoneID : String)
  | updateRecord (recordID : String) (req : UpdateRecordRequest)
  | createRecord (req : CreateRecordRequest)
deriving DecidableEq, Repr

/-- An update request as `handleUpdate` sees it: the Basic-Auth credential
pair when present, and the four query parameters (absent parameters read as
the empty string, as with Go's `Query().Get`). -/
structure UpdateRequest where
  basicAuth : Option (String × String)
  hostname : String
  myip : String
  myipv6 : String
  offline : String
deriving DecidableEq, Repr

/-- The observable HTTP response: status code, body text, and the
`WWW-Authenticate` header when set. -/
structure HttpResponse where
  status : Nat
  body : String
  wwwAuthenticate : Option String
deriving DecidableEq, Repr

/-- Go `http.Error w msg code`: the body is the message plus a newline. -/
def httpError (msg : String) (code : Nat) : HttpResponse :=
  { status := code, body := msg ++ "\n", wwwAuthenticate := none }

/-- A plain 200 response written with `fmt.Fprintf`. -/
def okResponse (body : String) : HttpResponse :=
  { status := 200, body := body, wwwAuthenticate := none }

/-- The 401 response of the authentication gate, with its challenge header. -/
def unauthorizedResponse : HttpResponse :=
  { status := 401, body := "Unauthorized\n",
    wwwAuthenticate := some "Basic realm=\"DynDNS\"" }

/-- The zone-scanning loop of `updateDNSRecord` (dyndns.go lines 150-162):
first zone whose name equals the hostname resolves to the apex record
name, otherwise first zone whose dot-prefixed name is a suffix of the
hostname resolves to the trimmed remainder. -/
def findZone (hostname : String) : List Zone → Option (Zone × String)
  | [] => none
  | zone :: rest =>
    if hostname == zone.Name then some (zone, "@")
    else if goHasSuffix hostname ("." ++ zone.Name) then
      some (zone, goTrimSuffix hostname ("." ++ zone.Name))
    else findZone hostname rest

/-- The record-scanning loop of `updateDNSRecord` (dyndns.go lines
178-184): first record matching the resolved name and requested type. -/
def findRecord (recordName recordType : String) : List DNSRecord → Option DNSRecord
  | [] => none
  | record :: rest =>
    if record.Name == recordName && record.«Type» == recordType then some record
    else findRecord recordName recordType rest

/-- dyndns.go `updateDNSRecord`, returning the Go error result and the
provider calls issued in order.  The update request is built from the
resolved zone and record plus the existing record's TTL; a missing record
is created with the fixed TTL 3600 declared in the source.  (The source
also assigns the target zone's ID alongside the update request; the wire
type of the update request carries type, name, value and TTL, which is
what the model records.) -/
def updateDNSRecord (p : Provider) (hostname ip recordType : String) :
    Except String Unit × List ProviderCall :=
  match p.getZones with
  | Except.error e => (Except.error ("failed to get zones: " ++ e), [ProviderCall.getZones])
  | Except.ok zones =>
    match findZone hostname zones with
    | none => (Except.error ("no zone found for hostname: " ++ hostname), [ProviderCall.getZones])
    | some (targetZone, recordName) =>
      match p.getAllRecords targetZone.ID with
      | Except.error e =>
        (Except.error ("failed to get records: " ++ e),
         [ProviderCall.getZones, ProviderCall.getAllRecords targetZone.ID])
      | Except.ok records =>
        match findRecord recordName recordType records with
        | some existingRecord =>
          let updateReq : UpdateRecordRequest :=
            { «Type» := recordType, Name := recordName, Value := ip,
              TTL := existingRecord.TTL }
          match p.updateRecord existingRecord.ID updateReq with
          | Except.error e =>
            (Except.error ("failed to update record: " ++ e),
             [ProviderCall.getZones, ProviderCall.getAllRecords targetZone.ID,
              ProviderCall.updateRecord existingRecord.ID updateReq])
          | Except.ok _ =>
            (Except.ok (),
             [ProviderCall.getZones, ProviderCall.getAllRecords targetZone.ID,
              ProviderCall.updateRecord existingRecord.ID updateReq])
        | none =>
          let createReq : CreateRecordRequest :=
            { «Type» := recordType, Name := recordName, Value := ip,
              TTL := some 3600, ZoneID := targetZone.ID }
          match p.createRecord createReq with
          | Except.error e =>
            (Except.error ("failed to create record: " ++ e),
             [ProviderCall.getZones, ProviderCall.getAllRecords targetZone.ID,
              ProviderCall.createRecord createReq])
          | Except.ok _ =>
            (Except.ok (),
             [ProviderCall.getZones, ProviderCall.getAllRecords targetZone.ID,
              ProviderCall.createRecord createReq])

/-- dyndns.go `handleUpdate`, translated branch by branch: authentication,
hostname check, offline short-circuit, per-family validation, the no-address
check, then one update lane per supplied family with the `911` collapse on
error and the joined success summary. -/
def handleUpdate (s : DynDNSServer) (p : Provider) (r : UpdateRequest) :
    HttpResponse × List ProviderCall :=
  match r.basicAuth with
  | none => (unauthorizedResponse, [])
  | some (user, pass) =>
    if user != s.username || pass != s.password then (unauthorizedResponse, [])
    else if r.hostname == "" then (httpError "Missing hostname parameter" 400, [])
    else if r.offline == "yes" then (okResponse "good", [])
    else if r.myip != "" && !isValidIPv4 r.myip then (httpError "Invalid IPv4 address" 400, [])
    else if r.myipv6 != "" && !isValidIPv6 r.myipv6 then (httpError "Invalid IPv6 address" 400, [])
    else
      let ipv4 := r.myip
      let ipv6 := r.myipv6
      if ipv4 == "" && ipv6 == "" then
        (httpError "No valid IP address provided or detected" 400, [])
      else if ipv4 != "" then
        match updateDNSRecord p r.hostname ipv4 "A" with
        | (Except.error _, calls4) => (okResponse "911", calls4)
        | (Except.ok _, calls4) =>
          let updateResults := ["IPv4: " ++ ipv4]
          if ipv6 != "" then
            match updateDNSRecord p r.hostname ipv6 "AAAA" with
            | (Except.error _, calls6) => (okResponse "911", calls4 ++ calls6)
            | (Except.ok _, calls6) =>
              let results := updateResults ++ ["IPv6: " ++ ipv6]
              (okResponse ("good " ++ goJoin results ", "), calls4 ++ calls6)
          else (okResponse ("good " ++ goJoin updateResults ", "), calls4)
      else
        if ipv6 != "" then
          match updateDNSRecord p r.hostname ipv6 "AAAA" with
          | (Except.error _, calls6) => (okResponse "911", calls6)
          | (Except.ok _, calls6) =>
            (okResponse ("good " ++ goJoin ["IPv6: " ++ ipv6] ", "), calls6)
        else (okResponse "good", [])

theorem string_mk_append (a b : List Char) : String.mk a ++ String.mk b = String.mk (a ++ b) :=
  rfl

/-- Trimming a present suffix and appending it back restores the string. -/
theorem goTrimSuffix_append {s suf : String} (h : goHasSuffix s suf = true) :
    goTrimSuffix s suf ++ suf = s := by
  have h' : suf.data <:+ s.data := List.isSuffixOf_iff_suffix.mp h
  obtain ⟨t, ht⟩ := h'
  unfold goTrimSuffix
  rw [if_pos h]
  cases s with
  | mk sdata =>
    cases suf with
    | mk sufdata =>
      simp only at ht
      rw [string_mk_append]
      have hd : sdata = t ++ sufdata := ht.symm
      subst hd
      simp [List.take_left']

/-- The guard of the zone loop: exact name match or dot-suffix match. -/
def zoneMatch (hostname : String) (z : Zone) : Bool :=
  hostname == z.Name || goHasSuffix hostname ("." ++ z.Name)

/-- A resolved zone is the first matching one, and the record name is the
apex sentinel on an exact match and the trimmed remainder otherwise. -/
theorem findZone_eq_some {hostname : String} {Z : List Zone} {z : Zone} {rn : String}
    (hf : findZone hostname Z = some (z, rn)) :
    ∃ pre post, Z = pre ++ z :: post ∧ (∀ z' ∈ pre, zoneMatch hostname z' = false) ∧
      ((hostname = z.Name ∧ rn = "@") ∨
       (hostname ≠ z.Name ∧ goHasSuffix hostname ("." ++ z.Name) = true ∧
        rn = goTrimSuffix hostname ("." ++ z.Name))) := by
  induction Z with
  | nil => simp [findZone] at hf
  | cons w rest ih =>
    by_cases h1 : hostname = w.Name
    · have h1' : (hostname == w.Name) = true := beq_iff_eq.mpr h1
      simp only [findZone, h1', if_true] at hf
      obtain ⟨hz, hr⟩ : w = z ∧ "@" = rn := by simpa using hf
      subst hz
      exact ⟨[], rest, rfl, by simp, Or.inl ⟨h1, hr.symm⟩⟩
    · have h1' : (hostname == w.Name) = false := beq_eq_false_iff_ne.mpr h1
      by_cases h2 : goHasSuffix hostname ("." ++ w.Name) = true
      · simp only [findZone, h1', Bool.false_eq_true, if_false, h2, if_true] at hf
        obtain ⟨hz, hr⟩ : w = z ∧ goTrimSuffix hostname ("." ++ w.Name) = rn := by
          simpa using hf
        subst hz
        exact ⟨[], rest, rfl, by simp, Or.inr ⟨h1, h2, hr.symm⟩⟩
      · have h2' : goHasSuffix hostname ("." ++ w.Name) = false := by
          simpa using h2
        simp only [findZone, h1', Bool.false_eq_true, if_false, h2', if_false] at hf
        obtain ⟨pre, post, hZ, hpre, hkind⟩ := ih hf
        refine ⟨w :: pre, post, by rw [hZ]; rfl, ?_, hkind⟩
        intro z' hz'
        rcases List.mem_cons.mp hz' with hzw | hzp
        · subst hzw
          simp [zoneMatch, h1', h2']
        · exact hpre z' hzp

/-- The first zone passing the guard is the one resolved. -/
theorem findZone_first {hostname : String} {pre : List Zone} {z : Zone} {post : List Zone}
    (hpre : ∀ z' ∈ pre, zoneMatch hostname z' = false) (hz : zoneMatch hostname z = true) :
    findZone hostname (pre ++ z :: post) =
      some (z, if hostname == z.Name then "@"
               else goTrimSuffix hostname ("." ++ z.Name)) := by
  induction pre with
  | nil =>
    simp only [List.nil_append, findZone]
    by_cases h1 : hostname = z.Name
    · simp [h1]
    · have h1' : (hostname == z.Name) = false := beq_eq_false_iff_ne.mpr h1
      have h2 : goHasSuffix hostname ("." ++ z.Name) = true := by
        simpa [zoneMatch, h1'] using hz
      simp [h1', h2]
  | cons w rest ih =>
    have hw : (hostname == w.Name || goHasSuffix hostname ("." ++ w.Name)) = false :=
      hpre w (List.mem_cons_self w rest)
    obtain ⟨hw1, hw2⟩ := Bool.or_eq_false_iff.mp hw
    simp only [List.cons_append, findZone, hw1, Bool.false_eq_true, if_false, hw2]
    exact ih fun z' hz' => hpre z' (List.mem_cons_of_mem w hz')

/-- When no zone passes the guard the scan is empty-handed. -/
theorem findZone_eq_none {hostname : String} {Z : List Zone}
    (h : ∀ z ∈ Z, zoneMatch hostname z = false) : findZone hostname Z = none := by
  induction Z with
  | nil => rfl
  | cons w rest ih =>
    have hw : (hostname == w.Name || goHasSuffix hostname ("." ++ w.Name)) = false :=
      h w (List.mem_cons_self w rest)
    obtain ⟨hw1, hw2⟩ := Bool.or_eq_false_iff.mp hw
    simp only [findZone, hw1, Bool.false_eq_true, if_false, hw2]
    exact ih fun z' hz' => h z' (List.mem_cons_of_mem w hz')

/-- The guard of the record loop: name and type both match. -/
def recordMatch (recordName recordType : String) (r : DNSRecord) : Bool :=
  r.Name == recordName && r.«Type» == recordType

/-- A selected record is the first one whose name and type match. -/
theorem findRecord_eq_some {recordName recordType : String} {rs : List DNSRecord}
    {r : DNSRecord} (hf : findRecord recordName recordType rs = some r) :
    ∃ pre post, rs = pre ++ r :: post ∧
      (∀ x ∈ pre, recordMatch recordName recordType x = false) ∧
      r.Name = recordName ∧ r.«Type» = recordType := by
  induction rs with
  | nil => simp [findRecord] at hf
  | cons w rest ih =>
    by_cases h1 : (w.Name == recordName && w.«Type» == recordType) = true
    · simp only [findRecord, h1, if_true] at hf
      obtain ⟨hn, ht⟩ := Bool.and_eq_true_iff.mp h1
      cases hf
      exact ⟨[], rest, rfl, by simp, beq_iff_eq.mp hn, beq_iff_eq.mp ht⟩
    · have h1' : (w.Name == recordName && w.«Type» == recordType) = false := by
        simpa using h1
      simp only [findRecord, h1', Bool.false_eq_true, if_false] at hf
      obtain ⟨pre, post, hrs, hpre, hn, ht⟩ := ih hf
      refine ⟨w :: pre, post, by rw [hrs]; rfl, ?_, hn, ht⟩
      intro x hx
      rcases List.mem_cons.mp hx with hxw | hxp
      · subst hxw; exact h1'
      · exact hpre x hxp

/-- When no record matches, the scan comes back empty. -/
theorem findRecord_eq_none {recordName recordType : String} {rs : List DNSRecord}
    (h : ∀ x ∈ rs, recordMatch recordName recordType x = false) :
    findRecord recordName recordType rs = none := by
  induction rs with
  | nil => rfl
  | cons w rest ih =>
    have hw : (w.Name == recordName && w.«Type» == recordType) = false :=
      h w (List.mem_cons_self w rest)
    simp only [findRecord, hw, Bool.false_eq_true, if_false]
    exact ih fun x hx => h x (List.mem_cons_of_mem w hx)

/-! ### Concrete fixtures used by the witnesses -/

/-- A zone as in the repository's tests: `example.com` with ID `zone1`. -/
def testZone : Zone :=
  { ID := "zone1", Name := "example.com", TTL := 3600, Registrar := "",
    LegacyDNSHost := "", LegacyNS := [], NS := [], Created := { rfc3339 := "" },
    Verified := { rfc3339 := "" }, Modified := { rfc3339 := "" }, Project := "",
    Owner := "", Permission := "", ZoneType := "", Status := "", Paused := false,
    IsSecondaryDNS := false, TxtVerification := { Name := "", Token := "" },
    RecordsCount := 0 }

/-- A record as in the repository's tests: `test`/`A`/`1.2.3.3` in `zone1`. -/
def testRecord : DNSRecord :=
  { ID := "rec1", «Type» := "A", Name := "test", Value := "1.2.3.3",
    TTL := some 300, ZoneID := "zone1", Created := "", Modified := "" }

/-- The server configuration used by the repository's tests. -/
def testServer : DynDNSServer :=
  { username := "admin", password := "password", port := "8080" }

/-- A provider with one zone and one existing `test`/`A` record. -/
def testProvider : Provider :=
  { getZones := Except.ok [testZone],
    getAllRecords := fun zid =>
      if zid == "zone1" then Except.ok [testRecord] else Except.error "unknown zone",
    updateRecord := fun rid req =>
      if rid == "rec1" then Except.ok { testRecord with Value := req.Value }
      else Except.error "unknown record",
    createRecord := fun req =>
      Except.ok { ID := "created", «Type» := req.«Type», Name := req.Name,
                  Value := req.Value, TTL := req.TTL, ZoneID := req.ZoneID,
                  Created := "", Modified := "" } }

/-- A provider with no zones at all (every hostname misses). -/
def emptyZonesProvider : Provider :=
  { getZones := Except.ok [],
    getAllRecords := fun _ => Except.error "not reached",
    updateRecord := fun _ _ => Except.error "not reached",
    createRecord := fun _ => Except.error "not reached" }

/-- C1: scanning the provider-returned zone list in order, the first zone
whose name equals the hostname resolves to the apex sentinel, the first
zone whose dot-prefixed name ends the hostname resolves to the remainder
(which re-appends to the hostname), and when no zone matches either way
`updateDNSRecord` fails with the zone-not-found error having issued only
the zone listing, no record call. -/
theorem C1_zone_resolution (hostname : String) (Z : List Zone) :
    (∀ z rn, findZone hostname Z = some (z, rn) →
       ∃ pre post, Z = pre ++ z :: post ∧ (∀ z' ∈ pre, zoneMatch hostname z' = false) ∧
         ((hostname = z.Name ∧ rn = "@") ∨
          (hostname ≠ z.Name ∧ goHasSuffix hostname ("." ++ z.Name) = true ∧
           rn ++ "." ++ z.Name = hostname))) ∧
    (∀ pre z post, Z = pre ++ z :: post →
       (∀ z' ∈ pre, zoneMatch hostname z' = false) → zoneMatch hostname z = true →
       findZone hostname Z =
         some (z, if hostname == z.Name then "@"
                  else goTrimSuffix hostname ("." ++ z.Name))) ∧
    ((∀ z ∈ Z, zoneMatch hostname z = false) →
       ∀ p ip t, p.getZones = Except.ok Z →
         updateDNSRecord p hostname ip t =
           (Except.error ("no zone found for hostname: " ++ hostname),
            [ProviderCall.getZones])) := by
  refine ⟨?_, ?_, ?_⟩
  · intro z rn hf
    obtain ⟨pre, post, hZ, hpre, hkind⟩ := findZone_eq_some hf
    refine ⟨pre, post, hZ, hpre, ?_⟩
    rcases hkind with ⟨he, hr⟩ | ⟨hne, hsuf, hr⟩
    · exact Or.inl ⟨he, hr⟩
    · refine Or.inr ⟨hne, hsuf, ?_⟩
      rw [hr, String.append_assoc]
      exact goTrimSuffix_append hsuf
  · intro pre z post hZ hpre hz
    rw [hZ]
    exact findZone_first hpre hz
  · intro hnone p ip t hgz
    unfold updateDNSRecord
    rw [hgz]
    simp only [findZone_eq_none hnone]

/-- Witness for C1 at concrete inputs: `test.example.com` resolves against
`[example.com]` to the `test` remainder, and an empty zone list makes
`updateDNSRecord` fail with only the zone listing issued. -/
theorem C1_zone_resolution_witness :
    findZone "test.example.com" [testZone] =
      some (testZone, if ("test.example.com" == testZone.Name : Bool) then "@"
                      else goTrimSuffix "test.example.com" ("." ++ testZone.Name)) ∧
    updateDNSRecord emptyZonesProvider "test.notfound.com" "1.2.3.4" "A" =
      (Except.error ("no zone found for hostname: " ++ "test.notfound.com"),
       [ProviderCall.getZones]) := by
  constructor
  · exact (C1_zone_resolution "test.example.com" [testZone]).2.1 [] testZone []
      rfl (by simp) (by decide)
  · exact (C1_zone_resolution "test.notfound.com" []).2.2 (by simp)
      emptyZonesProvider "1.2.3.4" "A" rfl

/-- C2: after resolution, the first record with the resolved name and the
requested type is selected; when one exists, the provider receives an
update for that record's ID carrying that record's TTL, and when none
exists a create with the fixed default TTL of 3600 seconds. -/
theorem C2_update_vs_create (p : Provider) (hostname ip t rn : String)
    (zones : List Zone) (z : Zone) (records : List DNSRecord)
    (hz : p.getZones = Except.ok zones)
    (hfind : findZone hostname zones = some (z, rn))
    (hrec : p.getAllRecords z.ID = Except.ok records) :
    (∀ rec, findRecord rn t records = some rec →
       (∃ pre post, records = pre ++ rec :: post ∧
          (∀ x ∈ pre, recordMatch rn t x = false) ∧
          rec.Name = rn ∧ rec.«Type» = t) ∧
       (updateDNSRecord p hostname ip t).2 =
         [ProviderCall.getZones, ProviderCall.getAllRecords z.ID,
          ProviderCall.updateRecord rec.ID
            { «Type» := t, Name := rn, Value := ip, TTL := rec.TTL }]) ∧
    (findRecord rn t records = none →
       (updateDNSRecord p hostname ip t).2 =
         [ProviderCall.getZones, ProviderCall.getAllRecords z.ID,
          ProviderCall.createRecord
            { «Type» := t, Name := rn, Value := ip, TTL := some 3600,
              ZoneID := z.ID }]) := by
  constructor
  · intro rec hfr
    refine ⟨findRecord_eq_some hfr, ?_⟩
    rcases hu : p.updateRecord rec.ID
        { «Type» := t, Name := rn, Value := ip, TTL := rec.TTL } with e | v <;>
      simp only [updateDNSRecord, hz, hfind, hrec, hfr, hu]
  · intro hfr
    rcases hc : p.createRecord
        { «Type» := t, Name := rn, Value := ip, TTL := some 3600, ZoneID := z.ID }
        with e | v <;>
      simp only [updateDNSRecord, hz, hfind, hrec, hfr, hc]

/-- Witness for C2: against the test fixtures, `test.example.com`/A updates
the existing record (carrying its TTL) and `new.example.com`/A creates a
record with TTL 3600. -/
theorem C2_update_vs_create_witness :
    (updateDNSRecord testProvider "test.example.com" "1.2.3.5" "A").2 =
      [ProviderCall.getZones, ProviderCall.getAllRecords testZone.ID,
       ProviderCall.updateRecord testRecord.ID
         { «Type» := "A", Name := "test", Value := "1.2.3.5", TTL := testRecord.TTL }] ∧
    (updateDNSRecord testProvider "new.example.com" "1.2.3.4" "A").2 =
      [ProviderCall.getZones, ProviderCall.getAllRecords testZone.ID,
       ProviderCall.createRecord
         { «Type» := "A", Name := "new", Value := "1.2.3.4", TTL := some 3600,
           ZoneID := testZone.ID }] := by
  constructor
  · exact ((C2_update_vs_create testProvider "test.example.com" "1.2.3.5" "A" "test"
      [testZone] testZone [testRecord] rfl (by decide) rfl).1 testRecord (by decide)).2
  · exact (C2_update_vs_create testProvider "new.example.com" "1.2.3.4" "A" "new"
      [testZone] testZone [testRecord] rfl (by decide) rfl).2 (by decide)

/-- The apply stage of `handleUpdate`: one update lane per supplied family,
with the `911` collapse on a lane error (lines 91-119 of the handler). -/
def applyLanes (p : Provider) (r : UpdateRequest) : HttpResponse × List ProviderCall :=
  if r.myip != "" then
    match updateDNSRecord p r.hostname r.myip "A" with
    | (Except.error _, calls4) => (okResponse "911", calls4)
    | (Except.ok _, calls4) =>
      if r.myipv6 != "" then
        match updateDNSRecord p r.hostname r.myipv6 "AAAA" with
        | (Except.error _, calls6) => (okResponse "911", calls4 ++ calls6)
        | (Except.ok _, calls6) =>
          (okResponse ("good " ++ goJoin (["IPv4: " ++ r.myip] ++ ["IPv6: " ++ r.myipv6]) ", "),
           calls4 ++ calls6)
      else (okResponse ("good " ++ goJoin ["IPv4: " ++ r.myip] ", "), calls4)
  else
    match updateDNSRecord p r.hostname r.myipv6 "AAAA" with
    | (Except.error _, calls6) => (okResponse "911", calls6)
    | (Except.ok _, calls6) =>
      (okResponse ("good " ++ goJoin ["IPv6: " ++ r.myipv6] ", "), calls6)

/-- A request that passes authentication and every validation step reaches
the apply stage. -/
theorem handleUpdate_validated (s : DynDNSServer) (p : Provider) (r : UpdateRequest)
    (hauth : r.basicAuth = some (s.username, s.password))
    (hhost : r.hostname ≠ "") (hoff : r.offline ≠ "yes")
    (hv4 : r.myip ≠ "" → isValidIPv4 r.myip = true)
    (hv6 : r.myipv6 ≠ "" → isValidIPv6 r.myipv6 = true)
    (hsome : ¬(r.myip = "" ∧ r.myipv6 = "")) :
    handleUpdate s p r = applyLanes p r := by
  have hh : (r.hostname == "") = false := beq_eq_false_iff_ne.mpr hhost
  have ho : (r.offline == "yes") = false := beq_eq_false_iff_ne.mpr hoff
  have hc4 : (r.myip != "" && !isValidIPv4 r.myip) = false := by
    by_cases h : r.myip = ""
    · simp [h]
    · simp [hv4 h]
  have hc6 : (r.myipv6 != "" && !isValidIPv6 r.myipv6) = false := by
    by_cases h : r.myipv6 = ""
    · simp [h]
    · simp [hv6 h]
  by_cases h4 : r.myip = ""
  · have h6 : r.myipv6 ≠ "" := fun h6 => hsome ⟨h4, h6⟩
    have hc0 : (r.myip == "" && r.myipv6 == "") = false := by
      simp [beq_eq_false_iff_ne.mpr h6]
    simp [handleUpdate, applyLanes, hauth, hh, ho, hc4, hc6, hc0, h4, h6]
  · have hc0 : (r.myip == "" && r.myipv6 == "") = false := by
      simp [beq_eq_false_iff_ne.mpr h4]
    have h4' : (r.myip != "") = true := by simp [h4]
    simp [handleUpdate, applyLanes, hauth, hh, ho, hc4, hc6, hc0, h4', hv4 h4]

/-- C3: once a request is authenticated and validated, a failure of
resolution or of any provider call in either lane (a missing zone
included) collapses to status 200 with body exactly `911` — never a 4xx,
and no partial-success text even when the IPv4 lane succeeded first. -/
theorem C3_provider_failure_collapse (s : DynDNSServer) (p : Provider) (r : UpdateRequest)
    (hauth : r.basicAuth = some (s.username, s.password))
    (hhost : r.hostname ≠ "") (hoff : r.offline ≠ "yes")
    (hv4 : r.myip ≠ "" → isValidIPv4 r.myip = true)
    (hv6 : r.myipv6 ≠ "" → isValidIPv6 r.myipv6 = true)
    (hsome : ¬(r.myip = "" ∧ r.myipv6 = ""))
    (hfail : (r.myip ≠ "" ∧ ∃ e, (updateDNSRecord p r.hostname r.myip "A").1 = Except.error e) ∨
             ((r.myip ≠ "" → (updateDNSRecord p r.hostname r.myip "A").1 = Except.ok ()) ∧
              r.myipv6 ≠ "" ∧
              ∃ e, (updateDNSRecord p r.hostname r.myipv6 "AAAA").1 = Except.error e)) :
    (handleUpdate s p r).1 = { status := 200, body := "911", wwwAuthenticate := none } := by
  rw [handleUpdate_validated s p r hauth hhost hoff hv4 hv6 hsome]
  rcases hfail with ⟨h4ne, e, herr⟩ | ⟨hok4, h6ne, e, herr⟩
  · have h4' : (r.myip != "") = true := by simp [h4ne]
    rcases hU : updateDNSRecord p r.hostname r.myip "A" with ⟨res4, calls4⟩
    rw [hU] at herr
    simp only at herr
    subst herr
    simp [applyLanes, h4', hU, okResponse]
  · have h6' : (r.myipv6 != "") = true := by simp [h6ne]
    rcases hU6 : updateDNSRecord p r.hostname r.myipv6 "AAAA" with ⟨res6, calls6⟩
    rw [hU6] at herr
    simp only at herr
    subst herr
    by_cases h4 : r.myip = ""
    · have h4' : (r.myip != "") = false := by simp [h4]
      simp [applyLanes, h4', hU6, okResponse]
    · have h4' : (r.myip != "") = true := by simp [h4]
      have hok := hok4 h4
      rcases hU4 : updateDNSRecord p r.hostname r.myip "A" with ⟨res4, calls4⟩
      rw [hU4] at hok
      simp only at hok
      subst hok
      simp [applyLanes, h4', h6', hU4, hU6, okResponse]

/-- Witness for C3: authenticated request for a hostname matching no zone,
with a valid IPv4 address, collapses to 200 `911`. -/
theorem C3_provider_failure_collapse_witness :
    (handleUpdate testServer emptyZonesProvider
      { basicAuth := some ("admin", "password"), hostname := "test.notfound.com",
        myip := "1.2.3.4", myipv6 := "", offline := "" }).1 =
      { status := 200, body := "911", wwwAuthenticate := none } :=
  C3_provider_failure_collapse testServer emptyZonesProvider
    { basicAuth := some ("admin", "password"), hostname := "test.notfound.com",
      myip := "1.2.3.4", myipv6 := "", offline := "" }
    rfl (by decide) (by decide) (fun _ => by decide) (fun h => absurd rfl h)
    (by decide)
    (Or.inl ⟨by decide, "no zone found for hostname: test.notfound.com", rfl⟩)

/-- C4: the concrete validator verdicts from the spec, plus the stated
generalisation that any string containing a colon fails `isValidIPv4`
even when it parses as an address. -/
theorem C4_address_validators :
    isValidIPv4 "255.255.255.255" = true ∧
    isValidIPv4 "256.1.1.1" = false ∧
    isValidIPv4 "2001:db8::1" = false ∧
    (∀ s : String, goCount s ':' ≠ 0 → isValidIPv4 s = false) ∧
    isValidIPv6 "::1" = true ∧
    isValidIPv6 "192.168.1.1" = false := by
  refine ⟨rfl, rfl, rfl, ?_, rfl, rfl⟩
  intro s h
  have hc : (goCount s ':' == 0) = false := by simpa using h
  simp [isValidIPv4, hc]

/-- Witness for C4's universal part, applied at the colon-containing
address of the spec. -/
theorem C4_address_validators_witness :
    isValidIPv4 "2001:db8::1" = false :=
  C4_address_validators.2.2.2.1 "2001:db8::1" (by decide)

/-- C5: each validation failure of an authenticated request is a 400 with
its descriptive message, and no provider call is issued. -/
theorem C5_validation_failures (s : DynDNSServer) (p : Provider) (r : UpdateRequest)
    (hauth : r.basicAuth = some (s.username, s.password)) :
    (r.hostname = "" →
       handleUpdate s p r = (httpError "Missing hostname parameter" 400, [])) ∧
    (r.hostname ≠ "" → r.offline ≠ "yes" → r.myip ≠ "" → isValidIPv4 r.myip = false →
       handleUpdate s p r = (httpError "Invalid IPv4 address" 400, [])) ∧
    (r.hostname ≠ "" → r.offline ≠ "yes" → (r.myip = "" ∨ isValidIPv4 r.myip = true) →
       r.myipv6 ≠ "" → isValidIPv6 r.myipv6 = false →
       handleUpdate s p r = (httpError "Invalid IPv6 address" 400, [])) ∧
    (r.hostname ≠ "" → r.offline ≠ "yes" → r.myip = "" → r.myipv6 = "" →
       handleUpdate s p r = (httpError "No valid IP address provided or detected" 400, [])) := by
  refine ⟨?_, ?_, ?_, ?_⟩
  · intro hh
    simp [handleUpdate, hauth, hh]
  · intro hhost hoff h4ne hbad
    have hh : (r.hostname == "") = false := beq_eq_false_iff_ne.mpr hhost
    have ho : (r.offline == "yes") = false := beq_eq_false_iff_ne.mpr hoff
    have h4' : (r.myip != "") = true := by simp [h4ne]
    simp [handleUpdate, hauth, hh, ho, h4', hbad]
  · intro hhost hoff h4ok h6ne hbad
    have hh : (r.hostname == "") = false := beq_eq_false_iff_ne.mpr hhost
    have ho : (r.offline == "yes") = false := beq_eq_false_iff_ne.mpr hoff
    have hc4 : (r.myip != "" && !isValidIPv4 r.myip) = false := by
      rcases h4ok with h | h
      · simp [h]
      · simp [h]
    have h6' : (r.myipv6 != "") = true := by simp [h6ne]
    simp [handleUpdate, hauth, hh, ho, hc4, h6', hbad]
  · intro hhost hoff h4 h6
    have hh : (r.hostname == "") = false := beq_eq_false_iff_ne.mpr hhost
    have ho : (r.offline == "yes") = false := beq_eq_false_iff_ne.mpr hoff
    simp [handleUpdate, hauth, hh, ho, h4, h6]

/-- Witness for C5: the four failure shapes at concrete requests. -/
theorem C5_validation_failures_witness :
    handleUpdate testServer testProvider
      { basicAuth := some ("admin", "password"), hostname := "",
        myip := "", myipv6 := "", offline := "" } =
      (httpError "Missing hostname parameter" 400, []) ∧
    handleUpdate testServer testProvider
      { basicAuth := some ("admin", "password"), hostname := "test.com",
        myip := "invalid.ip", myipv6 := "", offline := "" } =
      (httpError "Invalid IPv4 address" 400, []) ∧
    handleUpdate testServer testProvider
      { basicAuth := some ("admin", "password"), hostname := "test.com",
        myip := "", myipv6 := "invalid::ip::address", offline := "" } =
      (httpError "Invalid IPv6 address" 400, []) ∧
    handleUpdate testServer testProvider
      { basicAuth := some ("admin", "password"), hostname := "test.com",
        myip := "", myipv6 := "", offline := "" } =
      (httpError "No valid IP address provided or detected" 400, []) := by
  refine ⟨?_, ?_, ?_, ?_⟩
  · exact (C5_validation_failures testServer testProvider _ rfl).1 rfl
  · exact (C5_validation_failures testServer testProvider _ rfl).2.1
      (by decide) (by decide) (by decide) (by decide)
  · exact (C5_validation_failures testServer testProvider _ rfl).2.2.1
      (by decide) (by decide) (Or.inl rfl) (by decide) (by decide)
  · exact (C5_validation_failures testServer testProvider _ rfl).2.2.2
      (by decide) (by decide) rfl rfl

/-- C6: an authenticated request with a hostname and `offline=yes` gets
status 200 with body exactly `good` and zero provider calls. -/
theorem C6_offline_short_circuit (s : DynDNSServer) (p : Provider) (r : UpdateRequest)
    (hauth : r.basicAuth = some (s.username, s.password))
    (hhost : r.hostname ≠ "") (hoff : r.offline = "yes") :
    handleUpdate s p r =
      ({ status := 200, body := "good", wwwAuthenticate := none }, []) := by
  have hh : (r.hostname == "") = false := beq_eq_false_iff_ne.mpr hhost
  simp [handleUpdate, hauth, hh, hoff, okResponse]

/-- Witness for C6 at the test request `hostname=test.com&offline=yes`. -/
theorem C6_offline_short_circuit_witness :
    handleUpdate testServer testProvider
      { basicAuth := some ("admin", "password"), hostname := "test.com",
        myip := "", myipv6 := "", offline := "yes" } =
      ({ status := 200, body := "good", wwwAuthenticate := none }, []) :=
  C6_offline_short_circuit testServer testProvider _ rfl (by decide) rfl

/-- Failing authentication: credentials absent, or differing from the
configured pair. -/
def authFails (s : DynDNSServer) (r : UpdateRequest) : Prop :=
  match r.basicAuth with
  | none => True
  | some (user, pass) => user ≠ s.username ∨ pass ≠ s.password

/-- C8: whatever the other parameters, failing authentication yields 401
with the `WWW-Authenticate` challenge and no further processing (no
provider call). -/
theorem C8_authentication_gate (s : DynDNSServer) (p : Provider) (r : UpdateRequest)
    (h : authFails s r) :
    handleUpdate s p r =
      ({ status := 401, body := "Unauthorized\n",
         wwwAuthenticate := some "Basic realm=\"DynDNS\"" }, []) := by
  rcases hb : r.basicAuth with _ | ⟨user, pass⟩
  · simp [handleUpdate, hb, unauthorizedResponse]
  · unfold authFails at h
    rw [hb] at h
    have hcond : (user != s.username || pass != s.password) = true := by
      rcases h with h | h <;> simp [h]
    simp [handleUpdate, hb, hcond, unauthorizedResponse]

/-- Witness for C8: wrong password, otherwise well-formed request. -/
theorem C8_authentication_gate_witness :
    handleUpdate testServer testProvider
      { basicAuth := some ("admin", "wrong"), hostname := "test.example.com",
        myip := "1.2.3.4", myipv6 := "", offline := "" } =
      ({ status := 401, body := "Unauthorized\n",
         wwwAuthenticate := some "Basic realm=\"DynDNS\"" }, []) :=
  C8_authentication_gate testServer testProvider _ (Or.inr (by decide))

/-- C10: only the exact value `yes` of the offline parameter
short-circuits — any other value behaves as normal processing — and when
it fires, address validation is skipped entirely (the response is `good`
with no provider calls whatever `myip`/`myipv6` hold). -/
theorem C10_offline_exactness (s : DynDNSServer) (p : Provider) (r : UpdateRequest)
    (hauth : r.basicAuth = some (s.username, s.password)) (hhost : r.hostname ≠ "") :
    (r.offline ≠ "yes" →
       handleUpdate s p r = handleUpdate s p { r with offline := "" }) ∧
    (r.offline = "yes" →
       handleUpdate s p r =
         ({ status := 200, body := "good", wwwAuthenticate := none }, [])) := by
  have hh : (r.hostname == "") = false := beq_eq_false_iff_ne.mpr hhost
  constructor
  · intro hoff
    have ho : (r.offline == "yes") = false := beq_eq_false_iff_ne.mpr hoff
    have ho2 : (("" : String) == "yes") = false := by decide
    simp [handleUpdate, hauth, hh, ho, ho2]
  · intro hoff
    simp [handleUpdate, hauth, hh, hoff, okResponse]

/-- Witness for C10: `offline=no` with a malformed `myip` is rejected like
normal processing, while `offline=yes` with the same malformed `myip`
still answers `good` with zero provider calls. -/
theorem C10_offline_exactness_witness :
    handleUpdate testServer testProvider
      { basicAuth := some ("admin", "password"), hostname := "test.com",
        myip := "999.999.999.999", myipv6 := "", offline := "no" } =
      handleUpdate testServer testProvider
        { basicAuth := some ("admin", "password"), hostname := "test.com",
          myip := "999.999.999.999", myipv6 := "", offline := "" } ∧
    handleUpdate testServer testProvider
      { basicAuth := some ("admin", "password"), hostname := "test.com",
        myip := "999.999.999.999", myipv6 := "", offline := "yes" } =
      ({ status := 200, body := "good", wwwAuthenticate := none }, []) := by
  constructor
  · exact (C10_offline_exactness testServer testProvider _ rfl (by decide)).1 (by decide)
  · exact (C10_offline_exactness testServer testProvider _ rfl (by decide)).2 rfl

theorem good_summary_v4 (ip : String) :
    "good " ++ goJoin ["IPv4: " ++ ip] ", " = "good IPv4: " ++ ip := rfl

theorem good_summary_v6 (v : String) :
    "good " ++ goJoin ["IPv6: " ++ v] ", " = "good IPv6: " ++ v := rfl

theorem good_summary_both (ip v : String) :
    "good " ++ goJoin ["IPv4: " ++ ip, "IPv6: " ++ v] ", " =
      "good IPv4: " ++ ip ++ ", IPv6: " ++ v := by
  show "good " ++ ("IPv4: " ++ ip ++ ", " ++ ("IPv6: " ++ v)) =
    "good IPv4: " ++ ip ++ ", IPv6: " ++ v
  apply String.ext
  simp [List.append_assoc]

/-- C7: when every supplied family applies successfully the response is a
200 whose body is one of the four `good` summaries, the IPv4 summary
always preceding the IPv6 one. -/
theorem C7_success_response_format (s : DynDNSServer) (p : Provider) (r : UpdateRequest)
    (hauth : r.basicAuth = some (s.username, s.password))
    (hhost : r.hostname ≠ "") (hoff : r.offline ≠ "yes")
    (hv4 : r.myip ≠ "" → isValidIPv4 r.myip = true)
    (hv6 : r.myipv6 ≠ "" → isValidIPv6 r.myipv6 = true)
    (hsome : ¬(r.myip = "" ∧ r.myipv6 = ""))
    (hok4 : r.myip ≠ "" → (updateDNSRecord p r.hostname r.myip "A").1 = Except.ok ())
    (hok6 : r.myipv6 ≠ "" → (updateDNSRecord p r.hostname r.myipv6 "AAAA").1 = Except.ok ()) :
    (handleUpdate s p r).1.status = 200 ∧
    ((handleUpdate s p r).1.body = "good" ∨
     (handleUpdate s p r).1.body = "good IPv4: " ++ r.myip ∨
     (handleUpdate s p r).1.body = "good IPv6: " ++ r.myipv6 ∨
     (handleUpdate s p r).1.body = "good IPv4: " ++ r.myip ++ ", IPv6: " ++ r.myipv6) := by
  rw [handleUpdate_validated s p r hauth hhost hoff hv4 hv6 hsome]
  by_cases h4 : r.myip = ""
  · have h6 : r.myipv6 ≠ "" := fun h6 => hsome ⟨h4, h6⟩
    have h4' : (r.myip != "") = false := by simp [h4]
    rcases hU6 : updateDNSRecord p r.hostname r.myipv6 "AAAA" with ⟨res6, calls6⟩
    have h6ok := hok6 h6
    rw [hU6] at h6ok
    simp only at h6ok
    subst h6ok
    refine ⟨?_, Or.inr (Or.inr (Or.inl ?_))⟩ <;>
      simp [applyLanes, h4', hU6, okResponse, good_summary_v6]
  · have h4' : (r.myip != "") = true := by simp [h4]
    rcases hU4 : updateDNSRecord p r.hostname r.myip "A" with ⟨res4, calls4⟩
    have h4ok := hok4 h4
    rw [hU4] at h4ok
    simp only at h4ok
    subst h4ok
    by_cases h6 : r.myipv6 = ""
    · have h6' : (r.myipv6 != "") = false := by simp [h6]
      refine ⟨?_, Or.inr (Or.inl ?_)⟩ <;>
        simp [applyLanes, h4', h6', hU4, okResponse, good_summary_v4]
    · have h6' : (r.myipv6 != "") = true := by simp [h6]
      rcases hU6 : updateDNSRecord p r.hostname r.myipv6 "AAAA" with ⟨res6, calls6⟩
      have h6ok := hok6 h6
      rw [hU6] at h6ok
      simp only at h6ok
      subst h6ok
      refine ⟨?_, Or.inr (Or.inr (Or.inr ?_))⟩ <;>
        simp [applyLanes, h4', h6', hU4, hU6, okResponse, good_summary_both]

/-- Witness for C7: dual-stack success against the fixtures (IPv4 updates
the existing record, IPv6 creates one). -/
theorem C7_success_response_format_witness :
    (handleUpdate testServer testProvider
      { basicAuth := some ("admin", "password"), hostname := "test.example.com",
        myip := "1.2.3.5", myipv6 := "2001:db8::1", offline := "" }).1.status = 200 ∧
    ((handleUpdate testServer testProvider
      { basicAuth := some ("admin", "password"), hostname := "test.example.com",
        myip := "1.2.3.5", myipv6 := "2001:db8::1", offline := "" }).1.body = "good" ∨
     (handleUpdate testServer testProvider
      { basicAuth := some ("admin", "password"), hostname := "test.example.com",
        myip := "1.2.3.5", myipv6 := "2001:db8::1", offline := "" }).1.body =
        "good IPv4: " ++ "1.2.3.5" ∨
     (handleUpdate testServer testProvider
      { basicAuth := some ("admin", "password"), hostname := "test.example.com",
        myip := "1.2.3.5", myipv6 := "2001:db8::1", offline := "" }).1.body =
        "good IPv6: " ++ "2001:db8::1" ∨
     (handleUpdate testServer testProvider
      { basicAuth := some ("admin", "password"), hostname := "test.example.com",
        myip := "1.2.3.5", myipv6 := "2001:db8::1", offline := "" }).1.body =
        "good IPv4: " ++ "1.2.3.5" ++ ", IPv6: " ++ "2001:db8::1") :=
  C7_success_response_format testServer testProvider
    { basicAuth := some ("admin", "password"), hostname := "test.example.com",
      myip := "1.2.3.5", myipv6 := "2001:db8::1", offline := "" }
    rfl (by decide) (by decide) (fun _ => by decide) (fun _ => by decide)
    (by decide) (fun _ => rfl) (fun _ => rfl)

theorem mapM_jstr_loop (l acc : List String) :
    List.mapM.loop (fun x =>
      match x with
      | JVal.jstr s => some s
      | _ => none) (l.map JVal.jstr) acc = some (acc.reverse ++ l) := by
  induction l generalizing acc with
  | nil => simp [List.mapM.loop]
  | cons a t ih => simp [List.mapM.loop, ih]

theorem mapM_jstr (l : List String) :
    (l.map JVal.jstr).mapM (fun x =>
      match x with
      | JVal.jstr s => some s
      | _ => none) = some l := by
  simpa using mapM_jstr_loop l []

theorem decodeUpdateRecordRequest_encode (u : UpdateRecordRequest) :
    decodeUpdateRecordRequest (encodeUpdateRecordRequest u) = some u := by
  cases u with
  | mk ty name value ttl =>
    cases ttl with
    | none => rfl
    | some n => rfl

theorem decodeCreateRecordRequest_encode (c : CreateRecordRequest) :
    decodeCreateRecordRequest (encodeCreateRecordRequest c) = some c := by
  cases c with
  | mk ty name value ttl zoneID =>
    cases ttl with
    | none => rfl
    | some n => rfl

theorem decodeAPIError_encode (e : APIError) :
    decodeAPIError (encodeAPIError e) = some e := rfl

theorem decodeDNSRecord_encode (r : DNSRecord) :
    decodeDNSRecord (encodeDNSRecord r) = some r := by
  cases r with
  | mk id ty name value ttl zoneID created modified =>
    by_cases h1 : id = "" <;> by_cases h5 : zoneID = "" <;>
      by_cases h6 : created = "" <;> by_cases h7 : modified = "" <;>
      cases ttl <;>
      simp [encodeDNSRecord, decodeDNSRecord, jStrOmit, jTTLOmit, jlookup,
            decStr, decOptInt, h1, h5, h6, h7]

theorem decodeZone_encode (z : Zone) :
    decodeZone (encodeZone z) = some z := by
  cases z with
  | mk id name ttl registrar legacyHost legacyNS ns created verified modified
      project owner permission zoneType status paused isSecondary txt recordsCount =>
    simp [encodeZone, decodeZone, decodeZoneFields, decodeZoneStrings,
          encodeGoTime, encodeZoneTxtVerification, decodeZoneTxtVerification,
          decStr, decInt, decBool, decStrList, decTime, decTxtVerification,
          jlookup, mapM_jstr_loop]

/-- C9: every schema type round-trips through its JSON encoding, and the
optional TTL pointer keeps absent and zero apart: an absent TTL emits no
`ttl` field (and decodes back to absent), an explicit zero emits
`"ttl": 0` (and decodes back to zero). -/
theorem C9_json_roundtrip :
    (∀ r : DNSRecord, decodeDNSRecord (encodeDNSRecord r) = some r) ∧
    (∀ z : Zone, decodeZone (encodeZone z) = some z) ∧
    (∀ c : CreateRecordRequest,
       decodeCreateRecordRequest (encodeCreateRecordRequest c) = some c) ∧
    (∀ u : UpdateRecordRequest,
       decodeUpdateRecordRequest (encodeUpdateRecordRequest u) = some u) ∧
    (∀ e : APIError, decodeAPIError (encodeAPIError e) = some e) ∧
    (∀ r : DNSRecord, r.TTL = none → jfieldOf (encodeDNSRecord r) "ttl" = none) ∧
    (∀ r : DNSRecord, ∀ n : Int, r.TTL = some n →
       jfieldOf (encodeDNSRecord r) "ttl" = some (JVal.jnum n)) := by
  refine ⟨decodeDNSRecord_encode, decodeZone_encode, decodeCreateRecordRequest_encode,
          decodeUpdateRecordRequest_encode, decodeAPIError_encode, ?_, ?_⟩
  · intro r h
    cases r with
    | mk id ty name value ttl zoneID created modified =>
      simp only at h
      subst h
      by_cases h1 : id = "" <;> by_cases h5 : zoneID = "" <;>
        by_cases h6 : created = "" <;> by_cases h7 : modified = "" <;>
        simp [encodeDNSRecord, jfieldOf, jStrOmit, jTTLOmit, jlookup, h1, h5, h6, h7]
  · intro r n h
    cases r with
    | mk id ty name value ttl zoneID created modified =>
      simp only at h
      subst h
      by_cases h1 : id = "" <;> by_cases h5 : zoneID = "" <;>
        by_cases h6 : created = "" <;> by_cases h7 : modified = "" <;>
        simp [encodeDNSRecord, jfieldOf, jStrOmit, jTTLOmit, jlookup, h1, h5, h6, h7]

/-- Witness for C9's TTL conjuncts: a record without TTL emits no `ttl`
field; the same record with TTL zero emits `"ttl": 0` and round-trips. -/
theorem C9_json_roundtrip_witness :
    jfieldOf (encodeDNSRecord { testRecord with TTL := none }) "ttl" = none ∧
    jfieldOf (encodeDNSRecord { testRecord with TTL := some 0 }) "ttl" =
      some (JVal.jnum 0) ∧
    decodeDNSRecord (encodeDNSRecord { testRecord with TTL := some 0 }) =
      some { testRecord with TTL := some 0 } :=
  ⟨C9_json_roundtrip.2.2.2.2.2.1 { testRecord with TTL := none } rfl,
   C9_json_roundtrip.2.2.2.2.2.2 { testRecord with TTL := some 0 } 0 rfl,
   C9_json_roundtrip.1 { testRecord with TTL := some 0 }⟩
